import Mathlib

/-!
Verification of the MatchAlgorithm repository (UDP-telemetry threat assessment
with IFS fuzzy scoring, 16-sector haptic direction mapping, CSV replay guard).

Python floats are modelled by exact rationals; the transcendental library
functions used by the code (math.exp, math.sqrt, math.atan2 in degrees) are
abstracted as an explicit record of functions, so that every theorem proved
for all such records holds whatever values the floating-point library returns.
-/

/-- Clamp a rational to the unit interval, Python's max(0.0, min(1.0, x)). -/
def clamp01 (x : ℚ) : ℚ := max 0 (min 1 x)

/-- Intuitionistic fuzzy number: membership, non-membership, hesitancy. -/
structure IFS where
  mu : ℚ
  nu : ℚ
  pi : ℚ
deriving Repr, DecidableEq

/-- Constructor of IFS following IFS.__post_init__ in ifs_core.py: clamp mu and
nu to [0,1]; if mu + nu > 1 divide both by their sum; recompute pi = 1 - mu - nu. -/
def mkIFS (mu nu : ℚ) : IFS :=
  let m := clamp01 mu
  let n := clamp01 nu
  if m + n > 1 then
    { mu := m / (m + n), nu := n / (m + n), pi := 1 - m / (m + n) - n / (m + n) }
  else
    { mu := m, nu := n, pi := 1 - m - n }

/-- Score function S(A) = mu - nu (ifs_core.py). -/
def IFS.score (a : IFS) : ℚ := a.mu - a.nu

/-- Accuracy function H(A) = mu + nu (ifs_core.py). -/
def IFS.accuracy (a : IFS) : ℚ := a.mu + a.nu

namespace IFSOperations

/-- IFWA operator, IFSOperations.weighted_average in ifs_core.py.  Raises
ValueError (modelled as Except.error) when the list lengths differ or the
weight sum equals zero; otherwise divides each weight by the sum and combines
the memberships and non-memberships linearly, rebuilding the result through
the standard constructor. -/
def weighted_average (ifs_list : List IFS) (weights : List ℚ) : Except String IFS :=
  if ifs_list.length ≠ weights.length then
    .error "IFS list and weight list lengths must be equal"
  else
    let weight_sum := weights.sum
    if weight_sum = 0 then .error "weight sum must not be 0"
    else
      let normalized_weights := weights.map (fun w => w / weight_sum)
      .ok (mkIFS (((normalized_weights.zip ifs_list).map (fun p => p.1 * p.2.mu)).sum)
                 (((normalized_weights.zip ifs_list).map (fun p => p.1 * p.2.nu)).sum))

end IFSOperations

/-- Python float modulo restricted to a positive divisor: the result lies in
[0, b) for b > 0, as computed by the percent operator on floats. -/
def pyMod (a b : ℚ) : ℚ := a - b * ⌊a / b⌋

/-- angle_to_motor_id in direction_mapper.py: normalize the angle with the
percent operator to [0,360), then int((angle + 11.25) / 22.5) % 16; the
int() truncation equals the floor because the operand is nonnegative. -/
def angle_to_motor_id (angle : ℚ) : ℤ :=
  (⌊(pyMod angle 360 + 11.25) / 22.5⌋) % 16

/-- A 3-D point, models.py Position. -/
structure Position where
  x : ℚ
  y : ℚ
  z : ℚ
deriving Repr, DecidableEq

/-- One hostile entity, models.py Target.  The velocity field is declared as a
3-D vector in models.py but read as a scalar magnitude by
situation_awareness.py (the repository never resolves this); it is modelled
here by the optional scalar magnitude that the reading site consumes. -/
structure Target where
  id : ℤ
  angle : ℚ
  distance : ℚ
  type : String
  position : Position
  speed : ℚ
  direction : ℚ
  velocity : Option ℚ
deriving Repr, DecidableEq

/-- One telemetry tick, models.py GameData. -/
structure GameData where
  round : String
  playerPosition : Position
  targets : List Target
deriving Repr, DecidableEq

/-- calculate_threat_score_simple in threat_analyzer.py: the closed-form
heuristic 1/(distance+1) * 1/(|angle|+1) * typeFactor, with typeFactor 2.0
for type "Tank" and 1.0 otherwise.  The player position parameter is unused
by the source but kept in the interface. -/
def calculate_threat_score_simple (target : Target) (_player_pos : Position) : ℚ :=
  (1 / (target.distance + 1)) * (1 / (|target.angle| + 1)) *
    (if target.type = "Tank" then 2 else 1)

/-- One step of the linear scan in find_most_threatening_target_simple:
replace the accumulator exactly when the score strictly exceeds the running
maximum (which starts at -1). -/
def simpleScanStep (p : Position) (acc : ℚ × Option Target) (t : Target) : ℚ × Option Target :=
  let s := calculate_threat_score_simple t p
  if s > acc.1 then (s, some t) else acc

/-- find_most_threatening_target_simple in threat_analyzer.py: linear scan
with running maximum initialised to -1 and empty accumulator; returns the
accumulated target (None when the list is empty or nothing exceeded -1). -/
def find_most_threatening_target_simple (g : GameData) : Option Target :=
  if g.targets.isEmpty then none
  else (g.targets.foldl (simpleScanStep g.playerPosition) ((-1 : ℚ), (none : Option Target))).2

/-- find_most_threatening_target_with_ifs in threat_analyzer.py: the external
fuzzy tier, modelled by an optional oracle; when the adapter singleton is
absent the tier declines by returning none. -/
def find_most_threatening_target_with_ifs
    (ifs_adapter : Option (GameData → Option Target)) (g : GameData) : Option Target :=
  match ifs_adapter with
  | none => none
  | some f => f g

/-- find_most_threatening_target_with_gpt in threat_analyzer.py: the remote
language-model tier, modelled by an optional oracle; when the client is
absent (no credential) the tier declines by returning none. -/
def find_most_threatening_target_with_gpt
    (client : Option (GameData → Option Target)) (g : GameData) : Option Target :=
  match client with
  | none => none
  | some f => f g

/-- find_most_threatening_target in threat_analyzer.py: the three-tier
strategy chain ordered by the configured strategy string, each tier attempted
only when its feature flag is set and its singleton exists, falling through
to the simple heuristic. -/
def find_most_threatening_target (strategy : String) (enable_ifs enable_gpt : Bool)
    (ifs_adapter client : Option (GameData → Option Target)) (g : GameData) : Option Target :=
  if g.targets.isEmpty then none
  else if strategy = "ifs_first" then
    match (if enable_ifs && ifs_adapter.isSome then
             find_most_threatening_target_with_ifs ifs_adapter g else none) with
    | some t => some t
    | none =>
      match (if enable_gpt && client.isSome then
               find_most_threatening_target_with_gpt client g else none) with
      | some t => some t
      | none => find_most_threatening_target_simple g
  else if strategy = "gpt_first" then
    match (if enable_gpt && client.isSome then
             find_most_threatening_target_with_gpt client g else none) with
    | some t => some t
    | none =>
      match (if enable_ifs && ifs_adapter.isSome then
               find_most_threatening_target_with_ifs ifs_adapter g else none) with
      | some t => some t
      | none => find_most_threatening_target_simple g
  else find_most_threatening_target_simple g

/-- Rounding of a direction-threat value to 3 decimals as performed by
csv_logger.py before writing (Python rounds half to even on floats; the
half-up variant below agrees on every value whose scaled form is not an
exact half, which is immaterial to the replay-guard behaviour). -/
def round3 (q : ℚ) : ℚ := (⌊q * 1000 + 1 / 2⌋ : ℚ) / 1000

/-- One data row of the CSV log: csv_logger.py writes a timestamp, the round
identifier, the rendered fields of the most threatening target (literal
"N/A" placeholders when absent, modelled by the optional target itself) and
the 16 direction-threat values. -/
structure CsvRow where
  timestamp : String
  round : String
  threat_target : Option Target
  direction_threats : List ℚ
deriving Repr, DecidableEq

/-- The CSVLogger's file contents after the header: the ordered data rows. -/
structure CSVLogger where
  rows : List CsvRow
deriving Repr, DecidableEq

/-- A freshly constructed CSVLogger: header written, no data rows yet. -/
def CSVLogger.init : CSVLogger := ⟨[]⟩

/-- CSVLogger.log_round_data in csv_logger.py: pad the direction threats to
16 entries with zeros when fewer are supplied, keep the first 16, round each
to 3 decimals, and append one row (the file is flushed immediately).  The
wall-clock timestamp is supplied by the caller. -/
def CSVLogger.log_round_data (lg : CSVLogger) (ts : String) (round_number : String)
    (most_threatening_target : Option Target) (direction_threats : List ℚ) : CSVLogger :=
  let padded :=
    if direction_threats.length < 16 then
      direction_threats ++ List.replicate (16 - direction_threats.length) 0
    else direction_threats
  ⟨lg.rows ++ [⟨ts, round_number, most_threatening_target, (padded.take 16).map round3⟩]⟩

/-- CSVLogger.check_round_exists in csv_logger.py: linear scan of the file
for a data row whose round column equals the queried round identifier. -/
def CSVLogger.check_round_exists (lg : CSVLogger) (round_number : String) : Bool :=
  lg.rows.any (fun r => r.round == round_number)

/-- One call to log_round_data, for reasoning about a whole logging history. -/
structure LogOp where
  ts : String
  roundId : String
  target : Option Target
  threats : List ℚ
deriving Repr, DecidableEq

/-- Replay a history of log_round_data calls against a logger. -/
def applyLog (lg : CSVLogger) (ops : List LogOp) : CSVLogger :=
  ops.foldl (fun acc op => acc.log_round_data op.ts op.roundId op.target op.threats) lg

/-- normalize_angle in situation_awareness.py: the two while loops add or
subtract 360 until the angle lies in [0, 360), which on rationals equals
subtracting 360 times the floor of angle/360. -/
def normalize_angle (a : ℚ) : ℚ := a - 360 * ⌊a / 360⌋

/-- DIRECTION_RANGES in situation_awareness.py: the (start, end) bounds of
each of the 16 sectors of 22.5 degrees; sector 0 wraps through 0 degrees. -/
def DIRECTION_RANGES : ℕ → ℚ × ℚ
  | 0 => (348.75, 11.25)
  | 1 => (11.25, 33.75)
  | 2 => (33.75, 56.25)
  | 3 => (56.25, 78.75)
  | 4 => (78.75, 101.25)
  | 5 => (101.25, 123.75)
  | 6 => (123.75, 146.25)
  | 7 => (146.25, 168.75)
  | 8 => (168.75, 191.25)
  | 9 => (191.25, 213.75)
  | 10 => (213.75, 236.25)
  | 11 => (236.25, 258.75)
  | 12 => (258.75, 281.25)
  | 13 => (281.25, 303.75)
  | 14 => (303.75, 326.25)
  | 15 => (326.25, 348.75)
  | _ => (0, 0)

/-- is_angle_in_range in situation_awareness.py: normalize all three angles,
then start <= a < end when the range does not wrap, and a >= start or
a < end when it wraps through 0 degrees. -/
def is_angle_in_range (angle range_start range_end : ℚ) : Bool :=
  let a := normalize_angle angle
  let s := normalize_angle range_start
  let e := normalize_angle range_end
  if s ≤ e then decide (s ≤ a ∧ a < e)
  else decide (a ≥ s ∨ a < e)

/-- MAX_VELOCITY in situation_awareness.py, the normalization ceiling. -/
def MAX_VELOCITY : ℚ := 20

/-- The velocity factor of calculate_target_threat_score in
situation_awareness.py: 1.0 unless a velocity magnitude is present and
strictly positive, in which case 0.5 + 0.5 * min(velocity / 20, 1). -/
def velocity_factor (velocity : Option ℚ) : ℚ :=
  match velocity with
  | none => 1
  | some v => if v > 0 then 0.5 + 0.5 * min (v / MAX_VELOCITY) 1 else 1

/-- The movement factor of calculate_target_threat_score in
situation_awareness.py, given the target's bearing from the player. -/
def movement_factor (target_angle : ℚ) (direction : Option ℚ) (velocity : Option ℚ) : ℚ :=
  match direction, velocity with
  | some d, some v =>
    if v > 0 then
      let diff0 := |normalize_angle d - target_angle|
      let diff := if diff0 > 180 then 360 - diff0 else diff0
      if diff < 90 then 1 + 0.5 * (1 - diff / 90) else 0.8
    else 1
  | none, _ => 1
  | some _, none => 1

/-- calculate_target_threat_score in situation_awareness.py: the product of
the distance, angle, type, velocity and movement factors for one target
against one sector direction.  The target bearing comes from
calculate_direction_angle, whose atan2 is abstracted as a parameter. -/
def calculate_target_threat_score (target_angle : ℚ) (target : Target)
    (direction_angle : ℚ) : ℚ :=
  let distance_factor := 1 / (target.distance + 1)
  let angle_offset0 := |target_angle - direction_angle|
  let angle_offset := if angle_offset0 > 180 then 360 - angle_offset0 else angle_offset0
  let angle_factor := 1 / (angle_offset + 1)
  let type_factor : ℚ :=
    if target.type = "Tank" ∨ target.type = "tank" then 2
    else 1
  distance_factor * angle_factor * type_factor * velocity_factor target.velocity *
    movement_factor target_angle (some target.direction) target.velocity

/-- An axis-aligned rectangular terrain feature (building or obstacle) of
terrain_analyzer.py, given by its centre and footprint. -/
structure Building where
  id : ℤ
  x : ℚ
  z : ℚ
  width : ℚ
  depth : ℚ
deriving Repr, DecidableEq

/-- A loaded TerrainAnalyzer: its building and obstacle lists (alleys play no
role in line-of-sight checks). -/
structure TerrainAnalyzer where
  buildings : List Building
  obstacles : List Building
deriving Repr, DecidableEq

/-- The boundary loop of _line_rect_intersection (Liang-Barsky) in
terrain_analyzer.py: walk the four (p, q) coefficient pairs, rejecting when a
parallel segment lies outside or when the parameter window empties, and
tightening t_min on entering boundaries and t_max on exiting ones. -/
def lbClip : List (ℚ × ℚ) → ℚ → ℚ → Bool
  | [], _, _ => true
  | (p, q) :: rest, t_min, t_max =>
    if p = 0 then
      if q < 0 then false else lbClip rest t_min t_max
    else
      let t := q / p
      if p < 0 then
        if max t_min t > t_max then false else lbClip rest (max t_min t) t_max
      else
        if t_min > min t_max t then false else lbClip rest t_min (min t_max t)

/-- _line_rect_intersection in terrain_analyzer.py: Liang-Barsky clipping of
the segment (x1,y1)-(x2,y2) against an axis-aligned rectangle. -/
def line_rect_intersection (x1 y1 x2 y2 rect_left rect_bottom rect_right rect_top : ℚ) : Bool :=
  let dx := x2 - x1
  let dy := y2 - y1
  lbClip [(-dx, x1 - rect_left), (dx, rect_right - x1),
          (-dy, y1 - rect_bottom), (dy, rect_top - y1)] 0 1

/-- _line_intersects_building / _line_intersects_obstacle in
terrain_analyzer.py: build the rectangle from centre and half extents. -/
def line_intersects_building (x1 z1 x2 z2 : ℚ) (b : Building) : Bool :=
  line_rect_intersection x1 z1 x2 z2
    (b.x - b.width / 2) (b.z - b.depth / 2) (b.x + b.width / 2) (b.z + b.depth / 2)

/-- The result record of check_line_of_sight in terrain_analyzer.py. -/
structure LosResult where
  is_blocked : Bool
  blocking_buildings : List ℤ
  blocking_obstacles : List ℤ
  visibility_ratioQ : ℚ
  blocked_segments : ℕ
deriving Repr, DecidableEq

/-- check_line_of_sight in terrain_analyzer.py: collect the ids of every
building and obstacle whose rectangle intersects the segment, then derive the
blocked flag and the visibility ratio 1 - 0.3 per blocker (floored at 0). -/
def TerrainAnalyzer.check_line_of_sight (ta : TerrainAnalyzer) (pos1 pos2 : ℚ × ℚ) : LosResult :=
  let bb := (ta.buildings.filter
    (fun b => line_intersects_building pos1.1 pos1.2 pos2.1 pos2.2 b)).map (fun b => b.id)
  let bo := (ta.obstacles.filter
    (fun o => line_intersects_building pos1.1 pos1.2 pos2.1 pos2.2 o)).map (fun o => o.id)
  let total := bb.length + bo.length
  { is_blocked := decide (total > 0)
    blocking_buildings := bb
    blocking_obstacles := bo
    visibility_ratioQ := if total = 0 then 1 else max 0 (1 - (total : ℚ) * 0.3)
    blocked_segments := total }

/-- The transcendental library functions used by the Python code (math.exp,
math.sqrt and math.degrees composed with math.atan2), abstracted as data so
results hold for every value the floating-point library could return. -/
structure FloatOps where
  exp : ℚ → ℚ
  sqrt : ℚ → ℚ
  atan2deg : ℚ → ℚ → ℚ

/-- A trivial instantiation of the library functions, for concrete checks of
properties that do not depend on their values. -/
def trivFloatOps : FloatOps := ⟨fun _ => 0, fun _ => 0, fun _ _ => 0⟩

namespace IFSConverter

/-- IFSConverter.from_real_number in ifs_core.py: Gaussian membership through
the exp function; non-membership from the deviation over the range when both
bounds are given (capped at 0.9, pulled down to 1 - mu - 0.05 when the sum
would exceed 1), else max(0, 1 - mu - 0.1). -/
def from_real_number (ops : FloatOps) (value ideal tolerance : ℚ)
    (min_val max_val : Option ℚ) : IFS :=
  let mu := ops.exp (-((value - ideal) ^ 2) / (2 * tolerance ^ 2))
  match min_val, max_val with
  | some mn, some mx =>
    let range_span := mx - mn
    let deviation := |value - ideal|
    let nu0 := if range_span > 0 then min 0.9 (deviation / range_span) else 0.1
    let nu := if mu + nu0 > 1 then 1 - mu - 0.05 else nu0
    mkIFS mu nu
  | none, _ => mkIFS mu (max 0 (1 - mu - 0.1))
  | some _, none => mkIFS mu (max 0 (1 - mu - 0.1))

end IFSConverter

/-- The speed-threshold table of ThreatIndicators.__init__ in
threat_indicators.py, as (high, medium) pairs: soldier (5, 2) and ifv
(10, 5); the lookup site uses dict.get with the soldier entry as the default
for any other type. -/
def speed_thresholds (enemy_type : String) : ℚ × ℚ :=
  if enemy_type = "soldier" then (5, 2)
  else if enemy_type = "ifv" then (10, 5)
  else (5, 2)

/-- The result record of ThreatIndicators.evaluate_speed. -/
structure SpeedResult where
  ifs : IFS
  threat_score : ℚ
  threat_level : String
  speed : ℚ
  speed_category : String
  enemy_type : String
deriving Repr, DecidableEq

/-- ThreatIndicators.evaluate_speed in threat_indicators.py: pick the
thresholds for the target type, classify the speed into high_speed (excess
ratio formula), medium_speed (Gaussian conversion with ideal = high,
tolerance = medium over [0, 1.5*high]), low_speed (linear in speed/medium)
or static (fixed (0.25, 0.50)), then derive score and level. -/
def evaluate_speed (ops : FloatOps) (speed : ℚ) (enemy_type : String) : SpeedResult :=
  let th := speed_thresholds enemy_type
  let pair :=
    if speed ≥ th.1 then
      let excessR := min 2 (speed / th.1)
      ("high_speed", mkIFS (min 0.9 (0.65 + 0.25 * (excessR - 1)))
                           (max 0.05 (0.25 - 0.2 * (excessR - 1))))
    else if speed ≥ th.2 then
      ("medium_speed",
        IFSConverter.from_real_number ops speed th.1 th.2 (some 0) (some (th.1 * 1.5)))
    else if speed ≥ 0.5 then
      ("low_speed", mkIFS (0.3 + 0.2 * (speed / th.2)) (0.6 - 0.3 * (speed / th.2)))
    else ("static", mkIFS 0.25 0.5)
  { ifs := pair.2
    threat_score := pair.2.score
    threat_level :=
      if pair.2.score ≥ 0.5 then "high" else if pair.2.score ≥ 0.1 then "medium" else "low"
    speed := speed
    speed_category := pair.1
    enemy_type := enemy_type }

/-- A well-formed sample target (nonnegative distance) for concrete checks. -/
def c3WitnessTarget : Target := ⟨1, 0, 2, "Soldier", ⟨0, 0, 2⟩, 0, 0, none⟩

/-- A one-target tick with a well-formed target. -/
def c3WitnessGame : GameData := ⟨"1", ⟨0, 0, 0⟩, [c3WitnessTarget]⟩

/-- A target with the out-of-range distance -3 (the model does not enforce
nonnegative distances), whose heuristic score is exactly -1. -/
def c3BadTarget : Target := ⟨1, 0, -3, "Tank", ⟨0, 0, -3⟩, 0, 0, none⟩

/-- A one-target tick containing only the distance -3 target. -/
def c3BadGame : GameData := ⟨"1", ⟨0, 0, 0⟩, [c3BadTarget]⟩

/-- The terrain of spec property 7: one building centred at (10,10) with
width = depth = 8, occupying x in [6,14] and z in [6,14]; no obstacles. -/
def c7Terrain : TerrainAnalyzer := ⟨[⟨1, 10, 10, 8, 8⟩], []⟩

/-- ASCII lower-casing of a string, the effect of Python's str.lower() on the
identifiers used by the repository. -/
def asciiLower (s : String) : String :=
  String.mk (s.data.map
    (fun c => if 65 ≤ c.toNat ∧ c.toNat ≤ 90 then Char.ofNat (c.toNat + 32) else c))

/-- Strip leading and trailing whitespace from a character list. -/
def stripChars (l : List Char) : List Char :=
  ((l.dropWhile (fun c => c.isWhitespace)).reverse.dropWhile (fun c => c.isWhitespace)).reverse

/-- Python's str.lower().strip() as used by the linguistic and type lookups. -/
def pyLowerStrip (s : String) : String := String.mk (stripChars (asciiLower s).data)

/-- The result record of ThreatIndicators.evaluate_distance. -/
structure DistanceResult where
  ifs : IFS
  threat_score : ℚ
  threat_level : String
  distance : ℚ
  zone : String
deriving Repr, DecidableEq

/-- Threat level of the distance indicator from its score. -/
def distanceLevel (s : ℚ) : String :=
  if s ≥ 0.7 then "critical" else if s ≥ 0.4 then "high"
  else if s ≥ 0.0 then "medium" else "low"

/-- ThreatIndicators.evaluate_distance in threat_indicators.py: zone by the
thresholds critical 10 / high 20 / medium 35; Gaussian conversion per zone
with the zone's own ideal/tolerance/bounds, boosted in the two nearest zones;
exponential decay beyond 35 m. -/
def evaluate_distance (ops : FloatOps) (distance : ℚ) : DistanceResult :=
  let pair :=
    if distance ≤ 10 then
      let i0 := IFSConverter.from_real_number ops distance 0 5 (some 0) (some 10)
      ("critical", mkIFS (min 0.95 (i0.mu + 0.15)) (max 0.02 (i0.nu - 0.1)))
    else if distance ≤ 20 then
      let i0 := IFSConverter.from_real_number ops distance 10 5 (some 10) (some 20)
      ("high", mkIFS (min 0.85 (i0.mu + 0.1)) (max 0.05 (i0.nu - 0.05)))
    else if distance ≤ 35 then
      ("medium", IFSConverter.from_real_number ops distance 20 7 (some 20) (some 35))
    else
      let decay := ops.exp (-(distance - 35) / 15)
      ("low", mkIFS (max 0.1 (0.4 * decay)) (min 0.8 (0.5 + (1 - decay) * 0.3)))
  { ifs := pair.2
    threat_score := pair.2.score
    threat_level := distanceLevel pair.2.score
    distance := distance
    zone := pair.1 }

/-- The result record of ThreatIndicators.evaluate_attack_angle. -/
structure AngleResult where
  ifs : IFS
  threat_score : ℚ
  threat_level : String
  angle_to_player : ℚ
  angle_diff : ℚ
  direction_category : String
deriving Repr, DecidableEq

/-- ThreatIndicators.evaluate_attack_angle in threat_indicators.py: bearing
from the enemy to the player through atan2 in degrees, normalized to
[0,360); shortest angular difference to the enemy heading; four categories
with linear interpolation at thresholds 30 / 90 / 150. -/
def evaluate_attack_angle (ops : FloatOps) (enemy_direction : ℚ)
    (enemy_pos player_pos : ℚ × ℚ) : AngleResult :=
  let dx := player_pos.1 - enemy_pos.1
  let dz := player_pos.2 - enemy_pos.2
  let a0 := ops.atan2deg dz dx
  let angle_to_player := if a0 < 0 then a0 + 360 else a0
  let angle_diff := |pyMod (enemy_direction - angle_to_player + 180) 360 - 180|
  let pair :=
    if angle_diff ≤ 30 then
      ("approaching", mkIFS (0.95 - 0.15 * (angle_diff / 30)) (0.02 + 0.08 * (angle_diff / 30)))
    else if angle_diff ≤ 90 then
      let rel := (angle_diff - 30) / 60
      ("flanking", mkIFS (0.8 - 0.3 * rel) (0.1 + 0.3 * rel))
    else if angle_diff ≤ 150 then
      let rel := (angle_diff - 90) / 60
      ("lateral", mkIFS (0.5 - 0.2 * rel) (0.4 + 0.2 * rel))
    else
      let rel := (angle_diff - 150) / 30
      ("retreating", mkIFS (0.3 - 0.2 * rel) (0.6 + 0.2 * rel))
  { ifs := pair.2
    threat_score := pair.2.score
    threat_level :=
      if pair.2.score ≥ 0.6 then "high" else if pair.2.score ≥ 0.2 then "medium" else "low"
    angle_to_player := angle_to_player
    angle_diff := angle_diff
    direction_category := pair.1 }

/-- The result record of ThreatIndicators.evaluate_target_type. -/
structure TypeResult where
  ifs : IFS
  threat_score : ℚ
  threat_level : String
  type : String
  type_name : String
deriving Repr, DecidableEq

/-- ThreatIndicators.evaluate_target_type in threat_indicators.py: fixed
lookup on the lower-cased, stripped type string. -/
def evaluate_target_type (enemy_type : String) : TypeResult :=
  let t := pyLowerStrip enemy_type
  let entry :=
    if t = "ifv" then (mkIFS 0.90 0.05, "步兵战车", "high")
    else if t = "tank" then (mkIFS 0.90 0.05, "坦克", "high")
    else if t = "soldier" then (mkIFS 0.60 0.30, "士兵", "medium")
    else if t = "armed_personnel" then (mkIFS 0.50 0.40, "武装人员", "medium")
    else (mkIFS 0.55 0.35, "未知类型", "medium")
  { ifs := entry.1
    threat_score := entry.1.score
    threat_level := entry.2.2
    type := enemy_type
    type_name := entry.2.1 }

/-- The result record of ThreatIndicators.evaluate_visibility. -/
structure VisResult where
  ifs : IFS
  threat_score : ℚ
  threat_level : String
  is_blocked : Bool
  visibility_ratioQ : ℚ
  blocking_count : ℤ
deriving Repr, DecidableEq

/-- ThreatIndicators.evaluate_visibility in threat_indicators.py: effective
ratio from the argument or the blocked flag; three bands at 0.7 and 0.3 with
an uncertainty term driven by the blocker count in the lowest band. -/
def evaluate_visibility (is_blocked : Bool) (blocking_count : ℤ)
    (visibility_ratioQ : Option ℚ) : VisResult :=
  let vis := match visibility_ratioQ with
    | some r => r
    | none => if is_blocked then 0 else 1
  let pair :=
    if is_blocked = false ∨ vis > 0.7 then
      (mkIFS (0.85 - 0.1 * (1 - vis)) (0.10 + 0.1 * (1 - vis)), "high")
    else if vis > 0.3 then
      (mkIFS (0.45 + 0.25 * vis) (0.35 - 0.15 * vis), "medium")
    else
      let uncertainty := min 0.3 (0.1 + (blocking_count : ℚ) * 0.05)
      (mkIFS (0.30 - uncertainty) 0.50, "low")
  { ifs := pair.1
    threat_score := pair.1.score
    threat_level := pair.2
    is_blocked := is_blocked
    visibility_ratioQ := vis
    blocking_count := blocking_count }

/-- The result record of ThreatIndicators.evaluate_environment. -/
structure EnvResult where
  ifs : IFS
  threat_score : ℚ
  threat_level : String
  obstacle_density : ℚ
  building_density : ℚ
  total_density : ℚ
  complexity_level : String
deriving Repr, DecidableEq

/-- ThreatIndicators.evaluate_environment in threat_indicators.py: mean of
the two densities; auto-classification at 0.3 / 0.6 when no level is given
(note: the terrain analyzer itself classifies at 0.2 / 0.5); linear formulas
per level. -/
def evaluate_environment (obstacle_density building_density : ℚ)
    (complexity_level : Option String) : EnvResult :=
  let total_density := (obstacle_density + building_density) / 2
  let lvl := match complexity_level with
    | some l => l
    | none =>
      if total_density < 0.3 then "open"
      else if total_density < 0.6 then "moderate" else "complex"
  let pair :=
    if lvl = "open" then
      (mkIFS (0.70 - 0.2 * total_density) (0.20 + 0.1 * total_density), "high")
    else if lvl = "moderate" then
      (mkIFS (0.50 - 0.1 * (total_density - 0.3)) (0.35 + 0.1 * (total_density - 0.3)), "medium")
    else
      (mkIFS (0.40 - 0.15 * total_density) (0.30 + 0.1 * total_density), "low")
  { ifs := pair.1
    threat_score := pair.1.score
    threat_level := pair.2
    obstacle_density := obstacle_density
    building_density := building_density
    total_density := total_density
    complexity_level := lvl }

/-- The visibility entry of a per-enemy terrain dictionary, with the optional
keys read by evaluate_single_target through dict.get. -/
structure VisData where
  is_blocked : Option Bool
  blocking_count : Option ℤ
  visibility_ratioQ : Option ℚ
deriving Repr, DecidableEq

/-- The environment entry of a per-enemy terrain dictionary. -/
structure EnvData where
  obstacle_density : Option ℚ
  building_density : Option ℚ
  complexity_level : Option String
deriving Repr, DecidableEq

/-- A terrain-data dictionary as passed around threat_evaluator.py: it may
carry a visibility entry, an environment entry, and a per-enemy-id table of
further dictionaries (the shape produced by the terrain batch analysis). -/
inductive TData where
  | mk (visibility : Option VisData) (environment : Option EnvData)
       (enemies : Option (List (ℤ × TData)))

/-- The visibility entry of a terrain dictionary. -/
def TData.visibility : TData → Option VisData
  | .mk v _ _ => v

/-- The environment entry of a terrain dictionary. -/
def TData.environment : TData → Option EnvData
  | .mk _ e _ => e

/-- The per-enemy table of a terrain dictionary. -/
def TData.enemies : TData → Option (List (ℤ × TData))
  | .mk _ _ en => en

/-- dict.get on the per-enemy table. -/
def lookupEnemy (l : List (ℤ × TData)) (i : ℤ) : Option TData :=
  (l.find? (fun p => p.1 == i)).map (fun p => p.2)

/-- The per-enemy terrain extraction performed by rank_targets and by the
multi-enemy loop of find_most_threatening: terrain_data['enemies'].get(id)
when the table is present, else nothing. -/
def perEnemyTerrain (terrain_data : Option TData) (i : ℤ) : Option TData :=
  match terrain_data with
  | none => none
  | some td =>
    match td.enemies with
    | none => none
    | some l => lookupEnemy l i

/-- The plain enemy record consumed by IFSThreatEvaluator (threat_evaluator.py). -/
structure Enemy where
  id : ℤ
  type : String
  x : ℚ
  z : ℚ
  speed : ℚ
  direction : ℚ
deriving Repr, DecidableEq

/-- The result record of IFSThreatEvaluator.evaluate_single_target.  The
wall-clock evaluation_time and the per-indicator contribution diagnostics of
the source are not modelled; the rank key is absent until ranking sets it. -/
structure EvalResult where
  enemy_id : ℤ
  comprehensive_threat_score : ℚ
  threat_level : String
  ifs_values : IFS
  indicator_distance : DistanceResult
  indicator_speed : SpeedResult
  indicator_angle : AngleResult
  indicator_type : TypeResult
  indicator_visibility : VisResult
  indicator_environment : EnvResult
  distance : ℚ
  rank : Option ℕ
deriving Repr, DecidableEq

/-- The visibility branch of evaluate_single_target: use the terrain
dictionary's visibility entry through dict.get when present, else assume an
unobstructed view (ratio 1). -/
def visibilityIndicator (terrain_data : Option TData) : VisResult :=
  match terrain_data with
  | some td =>
    match td.visibility with
    | some vd => evaluate_visibility (vd.is_blocked.getD false)
        (vd.blocking_count.getD 0) vd.visibility_ratioQ
    | none => evaluate_visibility false 0 (some 1)
  | none => evaluate_visibility false 0 (some 1)

/-- The environment branch of evaluate_single_target: use the terrain
dictionary's environment entry through dict.get when present, else the open
default densities 0.2 and 0.1. -/
def environmentIndicator (terrain_data : Option TData) : EnvResult :=
  match terrain_data with
  | some td =>
    match td.environment with
    | some ed => evaluate_environment (ed.obstacle_density.getD 0)
        (ed.building_density.getD 0) ed.complexity_level
    | none => evaluate_environment 0.2 0.1 none
  | none => evaluate_environment 0.2 0.1 none

/-- IFSThreatEvaluator.evaluate_single_target in threat_evaluator.py with the
default weights (distance 0.30, type 0.25, speed 0.20, angle 0.15,
visibility 0.06, environment 0.04): Euclidean x/z distance through the sqrt
function; the six indicators, with visibility and environment defaulting to
a clear open scene when the terrain dictionary carries no such entry; IFWA
aggregation in the fixed indicator order (the error branch of the checked
operator is unreachable here: both lists have length 6 and the weights sum
to 1, matching the source where the ValueError cannot fire); threat level at
0.6 / 0.3 / 0. -/
def evaluate_single_target (ops : FloatOps) (enemy : Enemy) (player_pos : ℚ × ℚ)
    (terrain_data : Option TData) : EvalResult :=
  let dx := enemy.x - player_pos.1
  let dz := enemy.z - player_pos.2
  let distance := ops.sqrt (dx ^ 2 + dz ^ 2)
  let rd := evaluate_distance ops distance
  let rs := evaluate_speed ops enemy.speed enemy.type
  let ra := evaluate_attack_angle ops enemy.direction (enemy.x, enemy.z) player_pos
  let rt := evaluate_target_type enemy.type
  let rv := visibilityIndicator terrain_data
  let renv := environmentIndicator terrain_data
  let ifs_list := [rd.ifs, rt.ifs, rs.ifs, ra.ifs, rv.ifs, renv.ifs]
  let weight_list : List ℚ := [0.30, 0.25, 0.20, 0.15, 0.06, 0.04]
  let comprehensive_ifs := match IFSOperations.weighted_average ifs_list weight_list with
    | .ok c => c
    | .error _ => mkIFS 0 0
  let comprehensive_score := comprehensive_ifs.score
  { enemy_id := enemy.id
    comprehensive_threat_score := comprehensive_score
    threat_level :=
      if comprehensive_score ≥ 0.6 then "critical"
      else if comprehensive_score ≥ 0.3 then "high"
      else if comprehensive_score ≥ 0.0 then "medium" else "low"
    ifs_values := comprehensive_ifs
    indicator_distance := rd
    indicator_speed := rs
    indicator_angle := ra
    indicator_type := rt
    indicator_visibility := rv
    indicator_environment := renv
    distance := distance
    rank := none }

/-- Stable insertion of a result into a list sorted by descending score:
existing entries with strictly greater score stay in front, so equal scores
keep their original relative order.  Together with sortByScoreDesc this
models Python's stable list.sort(key=score, reverse=True) in rank_targets. -/
def insertByScore (r : EvalResult) : List EvalResult → List EvalResult
  | [] => [r]
  | y :: ys =>
    if y.comprehensive_threat_score > r.comprehensive_threat_score then
      y :: insertByScore r ys
    else r :: y :: ys

/-- Stable sort by descending comprehensive score (see insertByScore). -/
def sortByScoreDesc (l : List EvalResult) : List EvalResult :=
  l.foldr insertByScore []

/-- Rank assignment of rank_targets, enumerate(results, 1): position i gets
rank i + 1 counting from the given offset. -/
def assignRanksFrom (i : ℕ) : List EvalResult → List EvalResult
  | [] => []
  | r :: rs => { r with rank := some (i + 1) } :: assignRanksFrom (i + 1) rs

/-- IFSThreatEvaluator.rank_targets in threat_evaluator.py: evaluate every
enemy with its per-enemy terrain entry, sort stably by descending
comprehensive score, assign 1-based ranks. -/
def rank_targets (ops : FloatOps) (enemies : List Enemy) (player_pos : ℚ × ℚ)
    (terrain_data : Option TData) : List EvalResult :=
  assignRanksFrom 0 (sortByScoreDesc (enemies.map
    (fun e => evaluate_single_target ops e player_pos (perEnemyTerrain terrain_data e.id))))

/-- One step of the linear scan of find_most_threatening: the empty
accumulator plays the role of the -infinity initial maximum, which every
score exceeds; afterwards only strict improvements replace the best. -/
def findStep (acc : Option EvalResult) (r : EvalResult) : Option EvalResult :=
  match acc with
  | none => some r
  | some b =>
    if r.comprehensive_threat_score > b.comprehensive_threat_score then some r else some b

/-- IFSThreatEvaluator.find_most_threatening in threat_evaluator.py: none for
an empty list; for exactly one enemy, a direct evaluation passing the WHOLE
terrain dictionary (not the per-enemy entry) and setting no rank; otherwise
a linear scan over the per-enemy evaluations keeping the first strict
maximum, whose rank is then set to 1. -/
def find_most_threatening (ops : FloatOps) (enemies : List Enemy) (player_pos : ℚ × ℚ)
    (terrain_data : Option TData) : Option EvalResult :=
  match enemies with
  | [] => none
  | [e] => some (evaluate_single_target ops e player_pos terrain_data)
  | _ =>
    match (enemies.map
        (fun e => evaluate_single_target ops e player_pos
          (perEnemyTerrain terrain_data e.id))).foldl findStep none with
    | some r => some { r with rank := some 1 }
    | none => none

/-- The first element of a list attaining the maximal comprehensive score
(specification function for the scan and for the stable sort's head). -/
def firstMax : List EvalResult → Option EvalResult
  | [] => none
  | r :: l =>
    match firstMax l with
    | none => some r
    | some m =>
      if m.comprehensive_threat_score > r.comprehensive_threat_score then some m else some r

/-- The enemy of the single-enemy terrain counterexample. -/
def c5Enemy : Enemy := ⟨1, "soldier", 0, 0, 0, 0⟩

/-- A terrain dictionary whose per-enemy table marks enemy 1 as fully
blocked (one blocker, visibility ratio 0) but which carries no top-level
visibility or environment entry. -/
def c5TData : TData :=
  .mk none none (some [(1, .mk (some ⟨some true, some 1, some 0⟩) none none)])

/-- A second enemy, for two-enemy concrete checks. -/
def c5Enemy2 : Enemy := ⟨2, "ifv", 3, 4, 0, 0⟩

/- ---------------------------------------------------------------------- -/
/- Theorems -/
/- ---------------------------------------------------------------------- -/

/-- Claim C1: the IFS constructor clamps mu and nu to [0,1], rescales by the
sum when mu + nu > 1, and sets pi = 1 - mu - nu, so every constructed IFS has
mu + nu + pi = 1 within 1e-9; raw (0.8, 0.5) yields mu = 0.8/1.3,
nu = 0.5/1.3 and pi within 1e-9 of 0. -/
theorem c1_ifs_sum_invariant :
    (∀ mu nu : ℚ,
      |(mkIFS mu nu).mu + (mkIFS mu nu).nu + (mkIFS mu nu).pi - 1| ≤ 1 / 1000000000)
    ∧ (mkIFS 0.8 0.5).mu = 0.8 / 1.3
    ∧ (mkIFS 0.8 0.5).nu = 0.5 / 1.3
    ∧ |(mkIFS 0.8 0.5).pi| ≤ 1 / 1000000000 := by
  refine ⟨fun mu nu => ?_, ?_, ?_, ?_⟩
  · simp only [mkIFS]
    split_ifs <;> simp
  · norm_num [mkIFS, clamp01]
  · norm_num [mkIFS, clamp01]
  · norm_num [mkIFS, clamp01]

/-- Claim C2: after normalizing the bearing modulo 360, the motor mapping is
floor((b + 11.25) / 22.5) mod 16, always an integer in 0..15; bearings 0,
11.24 and 359 map to motor 0, bearing 11.26 to motor 1, bearing 180 to
motor 8. -/
theorem c2_angle_to_motor_id :
    (∀ b : ℚ, angle_to_motor_id b = (⌊(pyMod b 360 + 11.25) / 22.5⌋) % 16
      ∧ 0 ≤ angle_to_motor_id b ∧ angle_to_motor_id b ≤ 15)
    ∧ angle_to_motor_id 0 = 0
    ∧ angle_to_motor_id 11.24 = 0
    ∧ angle_to_motor_id 11.26 = 1
    ∧ angle_to_motor_id 180 = 8
    ∧ angle_to_motor_id 359 = 0 := by
  refine ⟨fun b => ⟨rfl, ?_, ?_⟩, ?_, ?_, ?_, ?_, ?_⟩
  · exact Int.emod_nonneg _ (by norm_num)
  · have h := Int.emod_lt_of_pos (⌊(pyMod b 360 + 11.25) / 22.5⌋) (show (0:ℤ) < 16 by norm_num)
    unfold angle_to_motor_id
    omega

  all_goals norm_num [angle_to_motor_id, pyMod]

/-- Invariant of the heuristic linear scan: the running maximum never
decreases, bounds every scanned score, and the accumulator is either
untouched or holds a scanned target together with its own score. -/
theorem simpleScan_invariant (p : Position) (l : List Target) :
    ∀ (m : ℚ) (b : Option Target),
      m ≤ (l.foldl (simpleScanStep p) (m, b)).1
      ∧ (∀ u ∈ l, calculate_threat_score_simple u p ≤ (l.foldl (simpleScanStep p) (m, b)).1)
      ∧ ((l.foldl (simpleScanStep p) (m, b)) = (m, b)
         ∨ ∃ t ∈ l, (l.foldl (simpleScanStep p) (m, b))
             = (calculate_threat_score_simple t p, some t)) := by
  induction l with
  | nil => intro m b; simp
  | cons u l ih =>
    intro m b
    have hstep : simpleScanStep p (m, b) u =
        (if calculate_threat_score_simple u p > m
          then (calculate_threat_score_simple u p, some u) else (m, b)) := rfl
    simp only [List.foldl_cons, hstep]
    split_ifs with h
    · obtain ⟨h1, h2, h3⟩ := ih (calculate_threat_score_simple u p) (some u)
      refine ⟨by linarith, ?_, ?_⟩
      · intro v hv
        rcases List.mem_cons.mp hv with hv | hv
        · subst hv; exact h1
        · exact h2 v hv
      · rcases h3 with h3 | ⟨t, ht, h3⟩
        · exact Or.inr ⟨u, List.mem_cons_self u l, h3⟩
        · exact Or.inr ⟨t, List.mem_cons_of_mem u ht, h3⟩
    · obtain ⟨h1, h2, h3⟩ := ih m b
      refine ⟨h1, ?_, ?_⟩
      · intro v hv
        rcases List.mem_cons.mp hv with hv | hv
        · subst hv; linarith [not_lt.mp h]
        · exact h2 v hv
      · rcases h3 with h3 | ⟨t, ht, h3⟩
        · exact Or.inl h3
        · exact Or.inr ⟨t, List.mem_cons_of_mem u ht, h3⟩

/-- With both external tiers absent, the chain reduces to the heuristic. -/
theorem chain_reduces_to_simple (strategy : String) (enable_ifs enable_gpt : Bool)
    (g : GameData) :
    find_most_threatening_target strategy enable_ifs enable_gpt none none g
      = if g.targets.isEmpty then none else find_most_threatening_target_simple g := by
  unfold find_most_threatening_target
  split_ifs <;>
    simp_all [find_most_threatening_target_with_ifs, find_most_threatening_target_with_gpt]

/-- Claim C3 counterexample: a tick whose only target has distance -3 (score
exactly -1, which never exceeds the scan's -1 start) makes the chain return
nothing even though the target list is non-empty, refuting the claim that
the chain returns a result for every GameData with a non-empty target list. -/
theorem c3_counterexample :
    c3BadGame.targets ≠ []
    ∧ find_most_threatening_target "ifs_first" true true none none c3BadGame = none := by
  refine ⟨by simp [c3BadGame], ?_⟩
  rw [chain_reduces_to_simple]
  norm_num [c3BadGame, c3BadTarget, find_most_threatening_target_simple,
    simpleScanStep, calculate_threat_score_simple]

/-- Claim C3 (amended): when the fuzzy tier and the LLM tier are both
unavailable, the chain returns, for every GameData whose target list is
non-empty and whose targets all have nonnegative distances, a target of the
list maximizing the heuristic score 1/(distance+1) * 1/(|angle|+1) *
typeFactor (typeFactor 2.0 for type "Tank", else 1.0); for an empty target
list the chain returns none. -/
theorem c3_chain_heuristic_fallback (g : GameData)
    (hne : g.targets ≠ [])
    (hd : ∀ t ∈ g.targets, 0 ≤ t.distance)
    (strategy : String) (enable_ifs enable_gpt : Bool) :
    (∃ t, find_most_threatening_target strategy enable_ifs enable_gpt none none g = some t
       ∧ t ∈ g.targets
       ∧ ∀ u ∈ g.targets,
           calculate_threat_score_simple u g.playerPosition
             ≤ calculate_threat_score_simple t g.playerPosition)
    ∧ (∀ (r : String) (p : Position),
        find_most_threatening_target strategy enable_ifs enable_gpt none none ⟨r, p, []⟩ = none) := by
  constructor
  · have hpos : ∀ u ∈ g.targets, 0 < calculate_threat_score_simple u g.playerPosition := by
      intro u hu
      have hd' := hd u hu
      unfold calculate_threat_score_simple
      have h1 : 0 < u.distance + 1 := by linarith
      have h2 : 0 < |u.angle| + 1 := by positivity
      have h3 : (0 : ℚ) < if u.type = "Tank" then 2 else 1 := by split <;> norm_num
      positivity
    have hempty : g.targets.isEmpty = false := by
      cases h : g.targets with
      | nil => exact absurd h hne
      | cons a l => rfl
    rw [chain_reduces_to_simple, hempty]
    simp only [Bool.false_eq_true, if_false]
    unfold find_most_threatening_target_simple
    rw [hempty]
    simp only [Bool.false_eq_true, if_false]
    obtain ⟨hm, hall, hcase⟩ :=
      simpleScan_invariant g.playerPosition g.targets (-1) none
    obtain ⟨u, hu⟩ := List.exists_mem_of_ne_nil g.targets hne
    rcases hcase with hcase | ⟨t, ht, hcase⟩
    · exfalso
      have h1 := hall u hu
      rw [hcase] at h1
      have h2 : calculate_threat_score_simple u g.playerPosition ≤ -1 := h1
      have h3 := hpos u hu
      linarith
    · refine ⟨t, ?_, ht, ?_⟩
      · rw [hcase]
      · intro v hv
        have h1 := hall v hv
        rw [hcase] at h1
        exact h1
  · intro r p
    rw [chain_reduces_to_simple]
    rfl

/-- Witness for c3_chain_heuristic_fallback at a concrete one-target tick. -/
theorem c3_chain_heuristic_fallback_witness :
    (c3WitnessGame.targets ≠ [] ∧ ∀ t ∈ c3WitnessGame.targets, 0 ≤ t.distance)
    ∧ ((∃ t, find_most_threatening_target "ifs_first" true true none none c3WitnessGame = some t
         ∧ t ∈ c3WitnessGame.targets
         ∧ ∀ u ∈ c3WitnessGame.targets,
             calculate_threat_score_simple u c3WitnessGame.playerPosition
               ≤ calculate_threat_score_simple t c3WitnessGame.playerPosition)
       ∧ (∀ (r : String) (p : Position),
           find_most_threatening_target "ifs_first" true true none none ⟨r, p, []⟩ = none)) :=
  ⟨⟨by simp [c3WitnessGame], by norm_num [c3WitnessGame, c3WitnessTarget]⟩,
   c3_chain_heuristic_fallback c3WitnessGame (by simp [c3WitnessGame])
     (by norm_num [c3WitnessGame, c3WitnessTarget]) "ifs_first" true true⟩

/-- Appending one row makes exactly its round visible to the scan. -/
theorem check_after_log (lg : CSVLogger) (ts rn : String) (t : Option Target)
    (d : List ℚ) (r : String) :
    (lg.log_round_data ts rn t d).check_round_exists r
      = (lg.check_round_exists r || (rn == r)) := by
  simp [CSVLogger.log_round_data, CSVLogger.check_round_exists, List.any_append]

/-- Scanning after replaying a history sees exactly the old rounds plus the
rounds of the history. -/
theorem applyLog_check (ops : List LogOp) (lg : CSVLogger) (r : String) :
    (applyLog lg ops).check_round_exists r
      = (lg.check_round_exists r || ops.any (fun op => op.roundId == r)) := by
  induction ops generalizing lg with
  | nil => simp [applyLog]
  | cons op ops ih =>
    have h1 : applyLog lg (op :: ops)
        = applyLog (lg.log_round_data op.ts op.roundId op.target op.threats) ops := rfl
    rw [h1, ih, check_after_log]
    simp [Bool.or_assoc]

/-- Claim C4: after log_round_data for a round id succeeds, check_round_exists
for that id returns true on the same logger; and on a logger whose history
never logged a given round id, check_round_exists returns false — the round
membership of the file is exactly the set of logged round ids. -/
theorem c4_replay_guard :
    (∀ (lg : CSVLogger) (ts round_number : String) (t : Option Target) (d : List ℚ),
      (lg.log_round_data ts round_number t d).check_round_exists round_number = true)
    ∧ (∀ (ops : List LogOp) (r : String),
      (applyLog CSVLogger.init ops).check_round_exists r = true
        ↔ r ∈ ops.map LogOp.roundId) := by
  constructor
  · intro lg ts rn t d
    rw [check_after_log]
    simp
  · intro ops r
    rw [applyLog_check]
    have hinit : CSVLogger.init.check_round_exists r = false := rfl
    rw [hinit]
    simp only [Bool.false_or, List.any_eq_true, List.mem_map]
    constructor
    · rintro ⟨op, hop, hbeq⟩
      exact ⟨op, hop, by simpa using hbeq⟩
    · rintro ⟨op, hop, heq⟩
      exact ⟨op, hop, by simp [heq]⟩

/-- Claim C7 counterexample: against the single building centred at (10,10)
with width = depth = 8, the segment from (0,0) to (50,50) passes through the
rectangle [6,14] x [6,14] (parameter window [0.12, 0.28]), so
check_line_of_sight reports it blocked, refuting the claim that is_blocked
is false for this segment. -/
theorem c7_counterexample :
    (c7Terrain.check_line_of_sight (0, 0) (50, 50)).is_blocked = true := by
  norm_num [c7Terrain, TerrainAnalyzer.check_line_of_sight, line_intersects_building,
    line_rect_intersection, lbClip, max_def, min_def]

/-- Claim C7 (amended): against the single building centred at (10,10) with
width = depth = 8, check_line_of_sight reports the segment from (0,0) to
(10,10) as blocked, and likewise the segment from (0,0) to (50,50) as
blocked (its diagonal also crosses the building); a segment that avoids the
rectangle, such as (0,0) to (50,0), is reported not blocked. -/
theorem c7_line_of_sight :
    (c7Terrain.check_line_of_sight (0, 0) (10, 10)).is_blocked = true
    ∧ (c7Terrain.check_line_of_sight (0, 0) (50, 50)).is_blocked = true
    ∧ (c7Terrain.check_line_of_sight (0, 0) (50, 0)).is_blocked = false := by
  norm_num [c7Terrain, TerrainAnalyzer.check_line_of_sight, line_intersects_building,
    line_rect_intersection, lbClip, max_def, min_def]

/-- Claim C9 counterexample: a target whose known velocity magnitude is 0
receives velocity factor 1.0 from the code, not the claimed
0.5 + 0.5 * min(velocity/20, 1) = 0.5. -/
theorem c9_counterexample :
    velocity_factor (some 0) = 1
    ∧ (0.5 + 0.5 * min ((0 : ℚ) / MAX_VELOCITY) 1) = 0.5
    ∧ velocity_factor (some 0) ≠ 0.5 + 0.5 * min ((0 : ℚ) / MAX_VELOCITY) 1 := by
  norm_num [velocity_factor, MAX_VELOCITY]

/-- Claim C9 (amended): in the situation-awareness per-target threat
contribution, the velocity factor is 1.0 for every target with no known
velocity magnitude and for every known magnitude that is not strictly
positive; for a strictly positive known magnitude it is
0.5 + 0.5 * min(velocity/20, 1), a value in [0.5, 1], with 20 m/s the
normalization ceiling. -/
theorem c9_velocity_factor (v : Option ℚ) :
    (v = none → velocity_factor v = 1)
    ∧ (∀ x : ℚ, v = some x → x ≤ 0 → velocity_factor v = 1)
    ∧ (∀ x : ℚ, v = some x → 0 < x →
        velocity_factor v = 0.5 + 0.5 * min (x / MAX_VELOCITY) 1
        ∧ 0.5 ≤ velocity_factor v ∧ velocity_factor v ≤ 1) := by
  refine ⟨fun h => by rw [h]; rfl, fun x hx hle => ?_, fun x hx hpos => ?_⟩
  · rw [hx]
    simp [velocity_factor, not_lt.mpr hle]
  · rw [hx]
    have hfac : velocity_factor (some x) = 0.5 + 0.5 * min (x / MAX_VELOCITY) 1 := by
      simp [velocity_factor, hpos]
    refine ⟨hfac, ?_, ?_⟩
    · rw [hfac]
      have h1 : (0 : ℚ) < min (x / MAX_VELOCITY) 1 :=
        lt_min (by simp [MAX_VELOCITY]; positivity) one_pos
      linarith
    · rw [hfac]
      have h2 : min (x / MAX_VELOCITY) 1 ≤ 1 := min_le_right _ _
      linarith

/-- Witness for c9_velocity_factor at the known positive magnitude 5. -/
theorem c9_velocity_factor_witness :
    (some (5 : ℚ) = some (5 : ℚ) ∧ (0 : ℚ) < 5)
    ∧ (velocity_factor (some 5) = 0.5 + 0.5 * min ((5 : ℚ) / MAX_VELOCITY) 1
       ∧ 0.5 ≤ velocity_factor (some 5) ∧ velocity_factor (some 5) ≤ 1) :=
  ⟨⟨rfl, by norm_num⟩, (c9_velocity_factor (some 5)).2.2 5 rfl (by norm_num)⟩

/-- Claim C6 counterexample: a weight list with the strictly negative sum -1
is "not positive", yet weighted_average succeeds (the code only rejects a sum
of exactly zero): the single weight -1 normalizes to 1 and the input IFS is
returned unchanged. -/
theorem c6_counterexample :
    ¬ (0 : ℚ) < ([(-1 : ℚ)].sum)
    ∧ IFSOperations.weighted_average [mkIFS 0.5 0.3] [-1] = .ok (mkIFS 0.5 0.3) := by
  constructor
  · norm_num
  · norm_num [IFSOperations.weighted_average, mkIFS, clamp01]

/-- Claim C6 (amended): weighted_average fails with an invalid-input error
exactly when the list lengths differ or the weight sum is exactly zero;
otherwise it divides each weight by the sum and returns the IFS constructed
from the weighted membership and non-membership sums; the worked example
yields mu = 0.66, nu = 0.24 and pi = 0.10. -/
theorem c6_weighted_average :
    (∀ (l : List IFS) (w : List ℚ),
      (∃ e, IFSOperations.weighted_average l w = .error e)
        ↔ (l.length ≠ w.length ∨ w.sum = 0))
    ∧ (∀ (l : List IFS) (w : List ℚ), l.length = w.length → w.sum ≠ 0 →
      IFSOperations.weighted_average l w
        = .ok (mkIFS
            ((((w.map (fun x => x / w.sum)).zip l).map (fun p => p.1 * p.2.mu)).sum)
            ((((w.map (fun x => x / w.sum)).zip l).map (fun p => p.1 * p.2.nu)).sum)))
    ∧ IFSOperations.weighted_average
        [mkIFS 0.8 0.1, mkIFS 0.6 0.3, mkIFS 0.4 0.5] [0.5, 0.3, 0.2]
        = .ok ⟨0.66, 0.24, 0.10⟩ := by
  refine ⟨?_, ?_, ?_⟩
  · intro l w
    simp only [IFSOperations.weighted_average]
    split_ifs with h1 h2 <;> simp_all
  · intro l w h1 h2
    simp only [IFSOperations.weighted_average]
    rw [if_neg (not_ne_iff.mpr h1), if_neg h2]
  · norm_num [IFSOperations.weighted_average, mkIFS, clamp01]

/-- Witness for c6_weighted_average at a concrete one-element instance. -/
theorem c6_weighted_average_witness :
    ([mkIFS 0.5 0.4].length = [(2 : ℚ)].length ∧ [(2 : ℚ)].sum ≠ 0)
    ∧ IFSOperations.weighted_average [mkIFS 0.5 0.4] [2]
        = .ok (mkIFS
            (((([(2 : ℚ)].map (fun x => x / [(2 : ℚ)].sum)).zip [mkIFS 0.5 0.4]).map
                (fun p => p.1 * p.2.mu)).sum)
            (((([(2 : ℚ)].map (fun x => x / [(2 : ℚ)].sum)).zip [mkIFS 0.5 0.4]).map
                (fun p => p.1 * p.2.nu)).sum)) :=
  ⟨⟨rfl, by norm_num⟩,
   c6_weighted_average.2.1 [mkIFS 0.5 0.4] [2] rfl (by norm_num)⟩

/-- Claim C8 counterexample: at speed 8 m/s an ifv target is classified
medium_speed by the code (ifv thresholds high = 10, medium = 5), while the
soldier thresholds the claim prescribes would classify it high_speed. -/
theorem c8_counterexample :
    (evaluate_speed trivFloatOps 8 "ifv").speed_category = "medium_speed"
    ∧ (evaluate_speed trivFloatOps 8 "soldier").speed_category = "high_speed"
    ∧ (evaluate_speed trivFloatOps 8 "ifv").speed_category
        ≠ (evaluate_speed trivFloatOps 8 "soldier").speed_category := by
  have hifv : speed_thresholds "ifv" = ((10 : ℚ), (5 : ℚ)) := rfl
  have hsol : speed_thresholds "soldier" = ((5 : ℚ), (2 : ℚ)) := rfl
  refine ⟨?_, ?_, ?_⟩ <;>
    (norm_num [evaluate_speed, hifv, hsol]; try decide)

/-- Claim C8 (amended): evaluate_speed uses the dedicated ifv thresholds
high = 10 m/s and medium = 5 m/s for type "ifv"; only types absent from the
threshold table fall back to the soldier thresholds high = 5, medium = 2 (the
whole result then agrees with the soldier evaluation except for the recorded
type string). -/
theorem c8_speed_thresholds (ops : FloatOps) (s : ℚ) (ty : String)
    (h1 : ty ≠ "soldier") (h2 : ty ≠ "ifv") :
    speed_thresholds "ifv" = (10, 5)
    ∧ speed_thresholds ty = (5, 2)
    ∧ evaluate_speed ops s ty = { evaluate_speed ops s "soldier" with enemy_type := ty }
    ∧ (evaluate_speed ops s "ifv").speed_category
        = (if s ≥ 10 then "high_speed" else if s ≥ 5 then "medium_speed"
           else if s ≥ 0.5 then "low_speed" else "static") := by
  have hth : speed_thresholds ty = speed_thresholds "soldier" := by
    simp [speed_thresholds, h1, h2]
  refine ⟨rfl, by simp [speed_thresholds, h1, h2], ?_, ?_⟩
  · simp only [evaluate_speed, hth]
  · have hifv : speed_thresholds "ifv" = ((10 : ℚ), (5 : ℚ)) := rfl
    simp only [evaluate_speed, hifv]
    split_ifs <;> rfl

/-- Witness for c8_speed_thresholds at the unlisted type "drone", speed 3. -/
theorem c8_speed_thresholds_witness :
    ("drone" ≠ "soldier" ∧ "drone" ≠ "ifv")
    ∧ (speed_thresholds "ifv" = (10, 5)
       ∧ speed_thresholds "drone" = (5, 2)
       ∧ evaluate_speed trivFloatOps 3 "drone"
           = { evaluate_speed trivFloatOps 3 "soldier" with enemy_type := "drone" }
       ∧ (evaluate_speed trivFloatOps 3 "ifv").speed_category
           = (if (3 : ℚ) ≥ 10 then "high_speed" else if (3 : ℚ) ≥ 5 then "medium_speed"
              else if (3 : ℚ) ≥ 0.5 then "low_speed" else "static")) :=
  ⟨⟨by decide, by decide⟩,
   c8_speed_thresholds trivFloatOps 3 "drone" (by decide) (by decide)⟩

/-- An angle already in [0, 360) is fixed by normalize_angle. -/
theorem normalize_angle_eq_self {a : ℚ} (h0 : 0 ≤ a) (h1 : a < 360) :
    normalize_angle a = a := by
  unfold normalize_angle
  have hz : ⌊a / 360⌋ = 0 := by
    rw [Int.floor_eq_zero_iff]
    constructor
    · positivity
    · rw [div_lt_one (by norm_num)]
      linarith
  rw [hz]
  ring

/-- An angle already in [0, 360) is fixed by the float modulo. -/
theorem pyMod_eq_self {a : ℚ} (h0 : 0 ≤ a) (h1 : a < 360) : pyMod a 360 = a := by
  unfold pyMod
  have hz : ⌊a / 360⌋ = 0 := by
    rw [Int.floor_eq_zero_iff]
    constructor
    · positivity
    · rw [div_lt_one (by norm_num)]
      linarith
  rw [hz]
  ring

/-- Bounds of the raw sector floor for a normalized bearing. -/
theorem motor_floor_bounds (a : ℚ) (h0 : 0 ≤ a) (h1 : a < 360) :
    0 ≤ ⌊(a + 11.25) / 22.5⌋ ∧ ⌊(a + 11.25) / 22.5⌋ ≤ 16 := by
  constructor
  · apply Int.floor_nonneg.mpr
    positivity
  · have hx : (a + 11.25) / 22.5 < 16.5 := by
      rw [div_lt_iff (by norm_num : (0 : ℚ) < 22.5)]
      linarith
    have h2 : ((⌊(a + 11.25) / 22.5⌋ : ℤ) : ℚ) ≤ (a + 11.25) / 22.5 := Int.floor_le _
    by_contra hc
    push_neg at hc
    have h3 : (17 : ℚ) ≤ ((⌊(a + 11.25) / 22.5⌋ : ℤ) : ℚ) := by exact_mod_cast hc
    linarith

/-- For a normalized bearing, the motor id equals a nonzero sector id k
exactly when the bearing lies in [22.5k - 11.25, 22.5k + 11.25). -/
theorem motor_eq_iff (a : ℚ) (h0 : 0 ≤ a) (h1 : a < 360) (k : ℤ)
    (hk1 : 1 ≤ k) (hk2 : k ≤ 15) :
    angle_to_motor_id a = k ↔ (22.5 * k - 11.25 ≤ a ∧ a < 22.5 * k + 11.25) := by
  unfold angle_to_motor_id
  rw [pyMod_eq_self h0 h1]
  obtain ⟨hb0, hb1⟩ := motor_floor_bounds a h0 h1
  have hmod : ⌊(a + 11.25) / 22.5⌋ % 16 = k ↔ ⌊(a + 11.25) / 22.5⌋ = k := by omega
  rw [hmod, Int.floor_eq_iff]
  rw [le_div_iff (by norm_num : (0 : ℚ) < 22.5), div_lt_iff (by norm_num : (0 : ℚ) < 22.5)]
  constructor
  · rintro ⟨hx, hy⟩
    push_cast at hx hy ⊢
    constructor <;> linarith
  · rintro ⟨hx, hy⟩
    push_cast
    constructor <;> linarith

/-- For a normalized bearing, the motor id equals 0 exactly when the bearing
lies in the wrapped sector [0, 11.25) or [348.75, 360). -/
theorem motor_eq_zero_iff (a : ℚ) (h0 : 0 ≤ a) (h1 : a < 360) :
    angle_to_motor_id a = 0 ↔ (a < 11.25 ∨ 348.75 ≤ a) := by
  unfold angle_to_motor_id
  rw [pyMod_eq_self h0 h1]
  obtain ⟨hb0, hb1⟩ := motor_floor_bounds a h0 h1
  have hmod : ⌊(a + 11.25) / 22.5⌋ % 16 = 0
      ↔ (⌊(a + 11.25) / 22.5⌋ = 0 ∨ ⌊(a + 11.25) / 22.5⌋ = 16) := by omega
  rw [hmod, Int.floor_eq_iff, Int.floor_eq_iff]
  rw [le_div_iff (by norm_num : (0 : ℚ) < 22.5), div_lt_iff (by norm_num : (0 : ℚ) < 22.5),
      le_div_iff (by norm_num : (0 : ℚ) < 22.5), div_lt_iff (by norm_num : (0 : ℚ) < 22.5)]
  push_cast
  constructor
  · rintro (⟨hx, hy⟩ | ⟨hx, hy⟩)
    · left; linarith
    · right; linarith
  · rintro (hx | hx)
    · left; constructor <;> linarith
    · right; constructor <;> linarith

/-- A non-wrapping sector s in 1..15 with bounds 22.5s - 11.25 and
22.5s + 11.25 contains a normalized bearing exactly when the motor mapping
sends the bearing to s. -/
theorem sector_iff (a : ℚ) (h0 : 0 ≤ a) (h1 : a < 360) (s : ℕ)
    (hs1 : 1 ≤ s) (hs2 : s ≤ 15) (lo hi : ℚ)
    (hlo : lo = 22.5 * s - 11.25) (hhi : hi = 22.5 * s + 11.25) :
    (is_angle_in_range a lo hi = true ↔ angle_to_motor_id a = s) := by
  subst hlo hhi
  have hs1Q : (1 : ℚ) ≤ (s : ℚ) := by exact_mod_cast hs1
  have hs2Q : (s : ℚ) ≤ 15 := by exact_mod_cast hs2
  have hn1 : normalize_angle (22.5 * (s : ℚ) - 11.25) = 22.5 * s - 11.25 :=
    normalize_angle_eq_self (by linarith) (by linarith)
  have hn2 : normalize_angle (22.5 * (s : ℚ) + 11.25) = 22.5 * s + 11.25 :=
    normalize_angle_eq_self (by linarith) (by linarith)
  simp only [is_angle_in_range, normalize_angle_eq_self h0 h1, hn1, hn2]
  rw [if_pos (by linarith)]
  rw [decide_eq_true_iff]
  rw [motor_eq_iff a h0 h1 s (by exact_mod_cast hs1) (by exact_mod_cast hs2)]
  push_cast
  constructor
  · rintro ⟨hx, hy⟩
    constructor <;> linarith
  · rintro ⟨hx, hy⟩
    constructor <;> linarith

/-- Claim C10: for every bearing in [0, 360), membership in a sector range of
DIRECTION_RANGES coincides with the arithmetic motor mapping, and exactly one
of the 16 sector ranges contains the bearing, so each target contributes to
exactly the sector whose motor points at it. -/
theorem c10_sector_partition (a : ℚ) (h0 : 0 ≤ a) (h1 : a < 360) :
    (∀ s : ℕ, s < 16 →
      (is_angle_in_range a (DIRECTION_RANGES s).1 (DIRECTION_RANGES s).2 = true
        ↔ angle_to_motor_id a = s))
    ∧ ∃! s : ℕ, s < 16
        ∧ is_angle_in_range a (DIRECTION_RANGES s).1 (DIRECTION_RANGES s).2 = true := by
  have hmain : ∀ s : ℕ, s < 16 →
      (is_angle_in_range a (DIRECTION_RANGES s).1 (DIRECTION_RANGES s).2 = true
        ↔ angle_to_motor_id a = s) := by
    intro s hs
    interval_cases s
    · have hn1 : normalize_angle (348.75 : ℚ) = 348.75 :=
        normalize_angle_eq_self (by norm_num) (by norm_num)
      have hn2 : normalize_angle (11.25 : ℚ) = 11.25 :=
        normalize_angle_eq_self (by norm_num) (by norm_num)
      show (is_angle_in_range a 348.75 11.25 = true ↔ _)
      simp only [is_angle_in_range, normalize_angle_eq_self h0 h1, hn1, hn2]
      rw [if_neg (by norm_num)]
      rw [decide_eq_true_iff]
      rw [show ((0 : ℕ) : ℤ) = 0 from rfl, motor_eq_zero_iff a h0 h1]
      constructor
      · rintro (hx | hx)
        · right; linarith
        · left; exact hx
      · rintro (hx | hx)
        · right; exact hx
        · left; linarith
    all_goals
      exact sector_iff a h0 h1 _ (by norm_num) (by norm_num) _ _
        (by norm_num [DIRECTION_RANGES]) (by norm_num [DIRECTION_RANGES])
  refine ⟨hmain, ?_⟩
  have hge := Int.emod_nonneg (⌊(pyMod a 360 + 11.25) / 22.5⌋) (by norm_num : (16 : ℤ) ≠ 0)
  have hlt := Int.emod_lt_of_pos (⌊(pyMod a 360 + 11.25) / 22.5⌋) (by norm_num : (0 : ℤ) < 16)
  have hge' : 0 ≤ angle_to_motor_id a := hge
  have hlt' : angle_to_motor_id a < 16 := hlt
  refine ⟨(angle_to_motor_id a).toNat, ⟨by omega, ?_⟩, ?_⟩
  · rw [hmain (angle_to_motor_id a).toNat (by omega)]
    omega
  · rintro s' ⟨hs'lt, hs'in⟩
    have := (hmain s' hs'lt).mp hs'in
    omega

/-- Specification of firstMax: it returns nothing only on the empty list, and
any returned element belongs to the list and bounds every score in it. -/
theorem firstMax_spec (l : List EvalResult) :
    (firstMax l = none ↔ l = [])
    ∧ (∀ m, firstMax l = some m → m ∈ l
        ∧ ∀ x ∈ l, x.comprehensive_threat_score ≤ m.comprehensive_threat_score) := by
  induction l with
  | nil => simp [firstMax]
  | cons r l ih =>
    constructor
    · constructor
      · intro h
        exfalso
        simp only [firstMax] at h
        cases hfl : firstMax l with
        | none => simp [hfl] at h
        | some m =>
          rw [hfl] at h
          dsimp at h
          split_ifs at h <;> simp at h
      · intro h; exact List.noConfusion h
    · intro m hm
      simp only [firstMax] at hm
      cases hfl : firstMax l with
      | none =>
        rw [hfl] at hm
        obtain rfl : r = m := by injection hm
        have hl : l = [] := ih.1.mp hfl
        subst hl
        refine ⟨List.mem_singleton.mpr rfl, ?_⟩
        intro x hx
        rcases List.mem_singleton.mp hx with rfl
        exact le_refl _
      | some mm =>
        rw [hfl] at hm
        dsimp at hm
        obtain ⟨hmem, hmax⟩ := ih.2 mm hfl
        split_ifs at hm with hgt
        · obtain rfl : mm = m := by injection hm
          refine ⟨List.mem_cons_of_mem r hmem, ?_⟩
          intro x hx
          rcases List.mem_cons.mp hx with rfl | hx
          · linarith
          · exact hmax x hx
        · obtain rfl : r = m := by injection hm
          refine ⟨List.mem_cons_self r l, ?_⟩
          intro x hx
          rcases List.mem_cons.mp hx with rfl | hx
          · exact le_refl _
          · have h1 := hmax x hx
            have h2 := not_lt.mp hgt
            linarith

/-- Taking the first maximum absorbs a pairwise first-of-two selection at the
front of the list. -/
theorem firstMax_cons_cons (b r : EvalResult) (l : List EvalResult) :
    firstMax (b :: r :: l)
      = firstMax ((if r.comprehensive_threat_score > b.comprehensive_threat_score
                   then r else b) :: l) := by
  cases hfl : firstMax l with
  | none =>
    by_cases hc : r.comprehensive_threat_score > b.comprehensive_threat_score <;>
      simp [firstMax, hfl, hc]
  | some m =>
    by_cases hc : r.comprehensive_threat_score > b.comprehensive_threat_score
    · by_cases h2 : m.comprehensive_threat_score > r.comprehensive_threat_score
      · have h3 : m.comprehensive_threat_score > b.comprehensive_threat_score := by linarith
        simp [firstMax, hfl, hc, h2, h3]
      · simp [firstMax, hfl, hc, h2]
    · by_cases h2 : m.comprehensive_threat_score > b.comprehensive_threat_score
      · by_cases h3 : m.comprehensive_threat_score > r.comprehensive_threat_score
        · simp [firstMax, hfl, hc, h2, h3]
        · exfalso
          have h4 := not_lt.mp hc
          have h5 := not_lt.mp h3
          linarith
      · by_cases h3 : m.comprehensive_threat_score > r.comprehensive_threat_score
        · simp [firstMax, hfl, hc, h2, h3]
        · simp [firstMax, hfl, hc, h2, h3]

/-- The scan of find_most_threatening started from an occupied accumulator
computes the first maximum with the accumulator in front. -/
theorem foldl_findStep_some (l : List EvalResult) :
    ∀ b, l.foldl findStep (some b) = firstMax (b :: l) := by
  induction l with
  | nil => intro b; rfl
  | cons r l ih =>
    intro b
    have hstep : findStep (some b) r =
        some (if r.comprehensive_threat_score > b.comprehensive_threat_score then r else b) := by
      simp only [findStep]
      split_ifs <;> rfl
    rw [List.foldl_cons, hstep, ih]
    exact (firstMax_cons_cons b r l).symm

/-- The scan of find_most_threatening computes the first maximum. -/
theorem foldl_findStep_none (l : List EvalResult) :
    l.foldl findStep none = firstMax l := by
  cases l with
  | nil => rfl
  | cons r l =>
    have h : findStep none r = some r := rfl
    rw [List.foldl_cons, h, foldl_findStep_some]

/-- Membership through stable insertion. -/
theorem mem_insertByScore (r z : EvalResult) (m : List EvalResult) :
    z ∈ insertByScore r m ↔ z = r ∨ z ∈ m := by
  induction m with
  | nil => simp [insertByScore]
  | cons y ys ih =>
    simp only [insertByScore]
    split_ifs
    · simp only [List.mem_cons, ih]
      tauto
    · simp [List.mem_cons]

/-- Stable insertion permutes consing. -/
theorem insertByScore_perm (r : EvalResult) (m : List EvalResult) :
    List.Perm (insertByScore r m) (r :: m) := by
  induction m with
  | nil => exact List.Perm.refl _
  | cons y ys ih =>
    simp only [insertByScore]
    split_ifs
    · exact (ih.cons y).trans (List.Perm.swap r y ys)
    · exact List.Perm.refl _

/-- The stable sort permutes its input. -/
theorem sortByScoreDesc_perm (l : List EvalResult) : List.Perm (sortByScoreDesc l) l := by
  induction l with
  | nil => exact List.Perm.refl _
  | cons r l ih =>
    have h1 : sortByScoreDesc (r :: l) = insertByScore r (sortByScoreDesc l) := rfl
    rw [h1]
    exact (insertByScore_perm r (sortByScoreDesc l)).trans (ih.cons r)

/-- The head of the stable sort is the first maximum. -/
theorem head_sortByScoreDesc (l : List EvalResult) :
    (sortByScoreDesc l).head? = firstMax l := by
  induction l with
  | nil => rfl
  | cons r l ih =>
    show (insertByScore r (sortByScoreDesc l)).head? = _
    cases hs : sortByScoreDesc l with
    | nil =>
      have h0 : firstMax l = none := by rw [← ih, hs]; rfl
      simp [insertByScore, firstMax, h0]
    | cons y ys =>
      have hy : firstMax l = some y := by rw [← ih, hs]; rfl
      simp only [insertByScore, firstMax, hy]
      split_ifs <;> rfl

/-- Stable insertion preserves descending sortedness. -/
theorem pairwise_insertByScore (r : EvalResult) (m : List EvalResult)
    (h : m.Pairwise
      (fun a b => b.comprehensive_threat_score ≤ a.comprehensive_threat_score)) :
    (insertByScore r m).Pairwise
      (fun a b => b.comprehensive_threat_score ≤ a.comprehensive_threat_score) := by
  induction m with
  | nil => simp [insertByScore]
  | cons y ys ih =>
    rw [List.pairwise_cons] at h
    obtain ⟨hy, hys⟩ := h
    simp only [insertByScore]
    split_ifs with hgt
    · rw [List.pairwise_cons]
      refine ⟨?_, ih hys⟩
      intro z hz
      rcases (mem_insertByScore r z ys).mp hz with rfl | hz
      · linarith
      · exact hy z hz
    · rw [List.pairwise_cons]
      refine ⟨?_, by rw [List.pairwise_cons]; exact ⟨hy, hys⟩⟩
      intro z hz
      have h2 := not_lt.mp hgt
      rcases List.mem_cons.mp hz with rfl | hz
      · linarith
      · have := hy z hz
        linarith

/-- The stable sort is sorted by descending score. -/
theorem pairwise_sortByScoreDesc (l : List EvalResult) :
    (sortByScoreDesc l).Pairwise
      (fun a b => b.comprehensive_threat_score ≤ a.comprehensive_threat_score) := by
  induction l with
  | nil => simp [sortByScoreDesc]
  | cons r l ih => exact pairwise_insertByScore r _ ih

/-- Rank assignment does not change the scores. -/
theorem assignRanksFrom_map_score (i : ℕ) (l : List EvalResult) :
    (assignRanksFrom i l).map (fun r => r.comprehensive_threat_score)
      = l.map (fun r => r.comprehensive_threat_score) := by
  induction l generalizing i with
  | nil => rfl
  | cons r rs ih => simp [assignRanksFrom, ih]

/-- The assigned ranks are consecutive from the offset plus one. -/
theorem assignRanksFrom_map_rank (i : ℕ) (l : List EvalResult) :
    (assignRanksFrom i l).map (fun r => r.rank)
      = (List.range l.length).map (fun j => some (i + j + 1)) := by
  induction l generalizing i with
  | nil => rfl
  | cons r rs ih =>
    simp only [assignRanksFrom, List.map_cons, List.length_cons,
      List.range_succ_eq_map, List.map_map]
    rw [ih]
    congr 1
    apply List.map_congr_left
    intro j hj
    simp only [Function.comp_apply, Option.some.injEq]
    omega

/-- Every ranked result's score is bounded by the first maximum's score. -/
theorem rank_le_firstMax (l : List EvalResult) (M : EvalResult)
    (hM : firstMax l = some M) :
    ∀ r ∈ assignRanksFrom 0 (sortByScoreDesc l),
      r.comprehensive_threat_score ≤ M.comprehensive_threat_score := by
  intro r hr
  have h1 : r.comprehensive_threat_score
      ∈ (assignRanksFrom 0 (sortByScoreDesc l)).map
          (fun x => x.comprehensive_threat_score) :=
    List.mem_map_of_mem _ hr
  rw [assignRanksFrom_map_score] at h1
  obtain ⟨x, hx, hxeq⟩ := List.mem_map.mp h1
  have hx2 : x ∈ l := (sortByScoreDesc_perm l).mem_iff.mp hx
  have h3 := ((firstMax_spec l).2 M hM).2 x hx2
  rw [← hxeq]
  exact h3

/-- The head of the ranked list is the first maximum carrying rank 1. -/
theorem head_rank (l : List EvalResult) (M : EvalResult) (hM : firstMax l = some M) :
    (assignRanksFrom 0 (sortByScoreDesc l)).head? = some { M with rank := some 1 } := by
  have hh := head_sortByScoreDesc l
  rw [hM] at hh
  cases hs : sortByScoreDesc l with
  | nil => rw [hs] at hh; simp at hh
  | cons y ys =>
    rw [hs] at hh
    simp only [List.head?_cons, Option.some.injEq] at hh
    subst hh
    rfl

/-- Claim C5 (amended): for a non-empty enemy list — provided no terrain data
is supplied or the list has at least two enemies (for a single enemy with
terrain data, find_most_threatening passes the whole terrain dictionary
instead of the per-enemy entry and can score differently) —
find_most_threatening returns an evaluation with the same enemy id and the
same comprehensive score as the first element of rank_targets on the same
inputs, and that score bounds every ranked score; for an empty list
find_most_threatening returns none; and rank_targets assigns ranks 1..N in
descending score order. -/
theorem c5_find_vs_rank (ops : FloatOps) (enemies : List Enemy) (p : ℚ × ℚ)
    (t : Option TData) (hne : enemies ≠ [])
    (hok : t = none ∨ 2 ≤ enemies.length) :
    find_most_threatening ops [] p t = none
    ∧ (∃ F H, find_most_threatening ops enemies p t = some F
        ∧ (rank_targets ops enemies p t).head? = some H
        ∧ F.enemy_id = H.enemy_id
        ∧ F.comprehensive_threat_score = H.comprehensive_threat_score
        ∧ ∀ r ∈ rank_targets ops enemies p t,
            r.comprehensive_threat_score ≤ F.comprehensive_threat_score)
    ∧ (rank_targets ops enemies p t).map (fun r => r.rank)
        = (List.range enemies.length).map (fun j => some (j + 1))
    ∧ ((rank_targets ops enemies p t).map
        (fun r => r.comprehensive_threat_score)).Pairwise (fun a b => b ≤ a) := by
  refine ⟨rfl, ?_, ?_, ?_⟩
  · rcases enemies with _ | ⟨e1, rest⟩
    · exact absurd rfl hne
    rcases rest with _ | ⟨e2, rest2⟩
    · rcases hok with ht | hlen
      · subst ht
        have hM : firstMax ([e1].map
            (fun e => evaluate_single_target ops e p (perEnemyTerrain none e.id)))
            = some (evaluate_single_target ops e1 p none) := rfl
        refine ⟨evaluate_single_target ops e1 p none,
                { evaluate_single_target ops e1 p none with rank := some 1 },
                rfl, head_rank _ _ hM, rfl, rfl, ?_⟩
        intro r hr
        exact rank_le_firstMax _ _ hM r hr
      · simp at hlen
    · cases hfm : firstMax ((e1 :: e2 :: rest2).map
          (fun e => evaluate_single_target ops e p (perEnemyTerrain t e.id))) with
      | none =>
        exfalso
        have h0 := (firstMax_spec _).1.mp hfm
        simp at h0
      | some M =>
        have hfind : find_most_threatening ops (e1 :: e2 :: rest2) p t
            = some { M with rank := some 1 } := by
          show (match ((e1 :: e2 :: rest2).map
              (fun e => evaluate_single_target ops e p (perEnemyTerrain t e.id))).foldl
                findStep none with
            | some r => some { r with rank := some 1 }
            | none => none) = _
          rw [foldl_findStep_none, hfm]
        refine ⟨{ M with rank := some 1 }, { M with rank := some 1 },
                hfind, head_rank _ _ hfm, rfl, rfl, ?_⟩
        intro r hr
        exact rank_le_firstMax _ _ hfm r hr
  · show (assignRanksFrom 0 (sortByScoreDesc (enemies.map
        (fun e => evaluate_single_target ops e p (perEnemyTerrain t e.id))))).map
          (fun r => r.rank) = _
    rw [assignRanksFrom_map_rank]
    have hlen : (sortByScoreDesc (enemies.map
        (fun e => evaluate_single_target ops e p (perEnemyTerrain t e.id)))).length
        = enemies.length := by
      rw [(sortByScoreDesc_perm _).length_eq, List.length_map]
    rw [hlen]
    apply List.map_congr_left
    intro j hj
    congr 1
    omega
  · show ((assignRanksFrom 0 (sortByScoreDesc (enemies.map
        (fun e => evaluate_single_target ops e p (perEnemyTerrain t e.id))))).map
          (fun r => r.comprehensive_threat_score)).Pairwise (fun a b => b ≤ a)
    rw [assignRanksFrom_map_score, List.pairwise_map]
    exact pairwise_sortByScoreDesc _

/-- The comprehensive score of an evaluation is the IFWA aggregate of the six
indicator fuzzy numbers under the default weights (definitional reading of
evaluate_single_target). -/
theorem evaluate_single_target_score (ops : FloatOps) (enemy : Enemy) (p : ℚ × ℚ)
    (td : Option TData) :
    (evaluate_single_target ops enemy p td).comprehensive_threat_score
    = (match IFSOperations.weighted_average
        [(evaluate_distance ops (ops.sqrt ((enemy.x - p.1) ^ 2 + (enemy.z - p.2) ^ 2))).ifs,
         (evaluate_target_type enemy.type).ifs,
         (evaluate_speed ops enemy.speed enemy.type).ifs,
         (evaluate_attack_angle ops enemy.direction (enemy.x, enemy.z) p).ifs,
         (visibilityIndicator td).ifs,
         (environmentIndicator td).ifs]
        [0.30, 0.25, 0.20, 0.15, 0.06, 0.04] with
       | .ok c => c
       | .error _ => mkIFS 0 0).score := rfl

/-- Claim C5 counterexample: with one enemy and terrain data whose per-enemy
table marks that enemy as fully blocked, find_most_threatening (which passes
the whole terrain dictionary to the evaluator, finding no visibility entry)
scores the enemy differently from the sole — hence maximal — element of
rank_targets (which uses the per-enemy entry), refuting the claimed score
equality with the maximum over the list. -/
theorem c5_counterexample :
    ∃ F H, find_most_threatening trivFloatOps [c5Enemy] (0, 0) (some c5TData) = some F
      ∧ (rank_targets trivFloatOps [c5Enemy] (0, 0) (some c5TData)).head? = some H
      ∧ F.comprehensive_threat_score ≠ H.comprehensive_threat_score := by
  refine ⟨_, _, rfl, rfl, ?_⟩
  show (evaluate_single_target trivFloatOps c5Enemy (0, 0) (some c5TData)).comprehensive_threat_score
    ≠ (evaluate_single_target trivFloatOps c5Enemy (0, 0)
        (perEnemyTerrain (some c5TData) c5Enemy.id)).comprehensive_threat_score
  have hls : pyLowerStrip "soldier" = "soldier" := by decide
  have hper : perEnemyTerrain (some c5TData) c5Enemy.id
      = some (TData.mk (some ⟨some true, some 1, some 0⟩) none none) := by
    simp [perEnemyTerrain, c5TData, TData.enemies, lookupEnemy, c5Enemy]
  have hd : (evaluate_distance trivFloatOps 0).ifs = ⟨3/20, 1/50, 83/100⟩ := by
    norm_num [evaluate_distance, IFSConverter.from_real_number, trivFloatOps,
      mkIFS, clamp01, min_def, max_def]
  have ht : (evaluate_target_type c5Enemy.type).ifs = ⟨3/5, 3/10, 1/10⟩ := by
    show (evaluate_target_type "soldier").ifs = _
    simp only [evaluate_target_type, hls]
    norm_num [mkIFS, clamp01, min_def, max_def]
    simp
  have hs2 : (evaluate_speed trivFloatOps c5Enemy.speed c5Enemy.type).ifs
      = ⟨1/4, 1/2, 1/4⟩ := by
    show (evaluate_speed trivFloatOps 0 "soldier").ifs = _
    have hsol : speed_thresholds "soldier" = ((5 : ℚ), (2 : ℚ)) := rfl
    norm_num [evaluate_speed, hsol, mkIFS, clamp01, min_def, max_def]
  have ha : (evaluate_attack_angle trivFloatOps c5Enemy.direction
      (c5Enemy.x, c5Enemy.z) (0, 0)).ifs = ⟨19/20, 1/50, 3/100⟩ := by
    show (evaluate_attack_angle trivFloatOps 0 (0, 0) (0, 0)).ifs = _
    norm_num [evaluate_attack_angle, trivFloatOps, pyMod, mkIFS, clamp01,
      min_def, max_def]
  have hv1 : (visibilityIndicator (some c5TData)).ifs = ⟨17/20, 1/10, 1/20⟩ := by
    simp only [visibilityIndicator, c5TData, TData.visibility]
    norm_num [evaluate_visibility, mkIFS, clamp01, min_def, max_def]
  have hv2 : (visibilityIndicator (some (TData.mk (some ⟨some true, some 1, some 0⟩)
      none none))).ifs = ⟨3/20, 1/2, 7/20⟩ := by
    simp only [visibilityIndicator, TData.visibility, Option.getD]
    norm_num [evaluate_visibility, mkIFS, clamp01, min_def, max_def]
  have he1 : (environmentIndicator (some c5TData)).ifs = ⟨67/100, 43/200, 23/200⟩ := by
    simp only [environmentIndicator, c5TData, TData.environment]
    norm_num [evaluate_environment, mkIFS, clamp01, min_def, max_def]
  have he2 : (environmentIndicator (some (TData.mk (some ⟨some true, some 1, some 0⟩)
      none none))).ifs = ⟨67/100, 43/200, 23/200⟩ := by
    simp only [environmentIndicator, TData.environment]
    norm_num [evaluate_environment, mkIFS, clamp01, min_def, max_def]
  rw [hper]
  simp only [evaluate_single_target_score]
  have hsq : trivFloatOps.sqrt ((c5Enemy.x - (0, 0).1) ^ 2 + (c5Enemy.z - (0, 0).2) ^ 2)
      = 0 := rfl
  rw [hsq, hd, ht, hs2, ha, hv1, hv2, he1, he2]
  norm_num [IFSOperations.weighted_average, mkIFS, clamp01, IFS.score,
    min_def, max_def]

/-- Witness for c5_find_vs_rank at a concrete two-enemy list without terrain. -/
theorem c5_find_vs_rank_witness :
    (([c5Enemy, c5Enemy2] : List Enemy) ≠ []
      ∧ ((none : Option TData) = none ∨ 2 ≤ ([c5Enemy, c5Enemy2] : List Enemy).length))
    ∧ (find_most_threatening trivFloatOps [] (0, 0) none = none
      ∧ (∃ F H, find_most_threatening trivFloatOps [c5Enemy, c5Enemy2] (0, 0) none = some F
          ∧ (rank_targets trivFloatOps [c5Enemy, c5Enemy2] (0, 0) none).head? = some H
          ∧ F.enemy_id = H.enemy_id
          ∧ F.comprehensive_threat_score = H.comprehensive_threat_score
          ∧ ∀ r ∈ rank_targets trivFloatOps [c5Enemy, c5Enemy2] (0, 0) none,
              r.comprehensive_threat_score ≤ F.comprehensive_threat_score)
      ∧ (rank_targets trivFloatOps [c5Enemy, c5Enemy2] (0, 0) none).map (fun r => r.rank)
          = (List.range ([c5Enemy, c5Enemy2] : List Enemy).length).map (fun j => some (j + 1))
      ∧ ((rank_targets trivFloatOps [c5Enemy, c5Enemy2] (0, 0) none).map
          (fun r => r.comprehensive_threat_score)).Pairwise (fun a b => b ≤ a)) :=
  ⟨⟨by simp, Or.inl rfl⟩,
   c5_find_vs_rank trivFloatOps [c5Enemy, c5Enemy2] (0, 0) none (by simp) (Or.inl rfl)⟩

/-- Witness for c10_sector_partition at the concrete bearing 45 degrees. -/
theorem c10_sector_partition_witness :
    ((0 : ℚ) ≤ 45 ∧ (45 : ℚ) < 360)
    ∧ ((∀ s : ℕ, s < 16 →
        (is_angle_in_range 45 (DIRECTION_RANGES s).1 (DIRECTION_RANGES s).2 = true
          ↔ angle_to_motor_id 45 = s))
      ∧ ∃! s : ℕ, s < 16
          ∧ is_angle_in_range 45 (DIRECTION_RANGES s).1 (DIRECTION_RANGES s).2 = true) :=
  ⟨⟨by norm_num, by norm_num⟩, c10_sector_partition 45 (by norm_num) (by norm_num)⟩
